import Mathlib

/-!
Shallow embedding of the Flask backend in src/Server/app.py of the
dobot-iot-control-app repository.

Modelling conventions:
* The three vendor-library client objects (dashboard, move, feed) are opaque;
  the server only ever tests them for presence (truthiness), so they are
  modelled by a record of three Booleans recording whether the handle was
  created at startup.
* Every remote method invocation on a client either returns a reply string or
  raises an exception carrying a message; it is modelled by an oracle of type
  Remote, mapping a call descriptor to Except String String.
* Each request handler is a pure function of the handles, the oracle and the
  parsed JSON request body; it returns its HTTP outcome together with the
  ordered list of remote calls it issued while handling the request.
* JSON numbers are modelled as exact rationals (Python parses them to int or
  float; all inputs considered here are exactly representable).  Python
  string formatting of a number with integral value renders its integer.
* Python builtin float parsing is modelled for finite decimal and
  scientific-notation literals (sign, digits, optional fraction, optional
  exponent, surrounding whitespace); the inf and nan spellings are outside
  the model since the number type is the rationals.
-/

/-- A JSON scalar value as it appears in a parsed request body. -/
inductive JVal where
  | null
  | bool (b : Bool)
  | num (q : Rat)
  | str (s : String)
deriving DecidableEq

/-- A JSON value as produced by jsonify for a response body. -/
inductive Json where
  | null
  | bool (b : Bool)
  | num (q : Rat)
  | str (s : String)
  | obj (fields : List (String × Json))

/-- A parsed JSON request body: none when the request carried no JSON object,
otherwise the key/value pairs of the top-level object. -/
def ReqBody : Type := Option (List (String × JVal))

/-- First-match lookup of a key in a parsed JSON object (Python dict
indexing; JSON objects have unique keys). -/
def lookupKey (data : List (String × JVal)) (k : String) : Option JVal :=
  match data with
  | [] => none
  | (k2, v) :: rest => if k2 = k then some v else lookupKey rest k

/-- An HTTP response: status code plus jsonify-produced body. -/
structure HttpResponse where
  code : Nat
  body : Json

/-- Outcome of running a handler: either an HTTP response was produced, or an
exception escaped the handler (Flask would then emit its own error page, not
one of the JSON envelopes built by this code). -/
inductive Outcome where
  | ok (r : HttpResponse)
  | unhandled (msg : String)

/-- Descriptor of one remote method invocation on a vendor client object. -/
inductive Call where
  | getErrorID
  | enableRobot
  | disableRobot
  | resetRobot
  | getPose
  | sync
  | movJ (x y z r : JVal)
  | movL (x y z r : JVal)
  | speedFactor ( ratio : JVal)
deriving DecidableEq

/-- Behaviour of the remote robot during one request: each call either
returns a reply string or raises a fault with a message. -/
def Remote : Type := Call → Except String String

/-- Whether each of the three client handles was successfully created at
startup (dashboard port 29999, move port 30003, feed port 30004). -/
structure Handles where
  dashboard : Bool
  move : Bool
  feed : Bool

/-- Did the remote call succeed? -/
def exOk (e : Except String String) : Bool :=
  match e with
  | .ok _ => true
  | .error _ => false

/-- The error envelope jsonify produces throughout app.py:
a dict with status "error" and a message. -/
def errJson (msg : String) : Json :=
  Json.obj [("status", Json.str "error"), ("message", Json.str msg)]

/-- The not-connected message of check_dobot_connection. -/
def notConnectedMsg : String :=
  "Dobot is not connected. Check the server logs for details."

/-- check_dobot_connection: if any of the three handles is absent, produce
the 503 error response; otherwise nothing (the handler proceeds). -/
def check_dobot_connection (h : Handles) : Option (Json × Nat) :=
  if !h.dashboard || !h.move || !h.feed then
    some (errJson notConnectedMsg, 503)
  else
    none

/-- connection_check endpoint (GET /api/connection/check): live GetErrorID
heartbeat on the dashboard handle when present; move and feed status are
inferred from handle presence and the dashboard result. -/
def connection_check (h : Handles) (remote : Remote) : Outcome × List Call :=
  (Outcome.ok ⟨200, Json.obj
      [("dashboard", Json.bool (h.dashboard && exOk (remote Call.getErrorID))),
       ("move", Json.bool (h.move && (h.dashboard && exOk (remote Call.getErrorID)))),
       ("feed", Json.bool (h.feed && (h.dashboard && exOk (remote Call.getErrorID))))]⟩,
   if h.dashboard then [Call.getErrorID] else [])

/-- enable_robot endpoint (POST /api/robot/enable). -/
def enable_robot (h : Handles) (remote : Remote) : Outcome × List Call :=
  match check_dobot_connection h with
  | some (body, code) => (Outcome.ok ⟨code, body⟩, [])
  | none =>
    match remote Call.enableRobot with
    | .ok result =>
        (Outcome.ok ⟨200, Json.obj
          [("status", Json.str "success"),
           ("message", Json.str "Robot enabled."),
           ("robot_response", Json.str result)]⟩, [Call.enableRobot])
    | .error e => (Outcome.ok ⟨500, errJson e⟩, [Call.enableRobot])

/-- disable_robot endpoint (POST /api/robot/disable). -/
def disable_robot (h : Handles) (remote : Remote) : Outcome × List Call :=
  match check_dobot_connection h with
  | some (body, code) => (Outcome.ok ⟨code, body⟩, [])
  | none =>
    match remote Call.disableRobot with
    | .ok result =>
        (Outcome.ok ⟨200, Json.obj
          [("status", Json.str "success"),
           ("message", Json.str "Robot disabled."),
           ("robot_response", Json.str result)]⟩, [Call.disableRobot])
    | .error e => (Outcome.ok ⟨500, errJson e⟩, [Call.disableRobot])

/-- stop_robot endpoint (POST /api/robot/stop); issues ResetRobot. -/
def stop_robot (h : Handles) (remote : Remote) : Outcome × List Call :=
  match check_dobot_connection h with
  | some (body, code) => (Outcome.ok ⟨code, body⟩, [])
  | none =>
    match remote Call.resetRobot with
    | .ok result =>
        (Outcome.ok ⟨200, Json.obj
          [("status", Json.str "success"),
           ("message", Json.str "Robot stopped and queue cleared."),
           ("robot_response", Json.str result)]⟩, [Call.resetRobot])
    | .error e => (Outcome.ok ⟨500, errJson e⟩, [Call.resetRobot])

/-- Split a character list at every character satisfying p (semantics of the
Python single-separator str.split: n separators yield n+1 segments). -/
def splitOnPred (p : Char → Bool) : List Char → List (List Char)
  | [] => [[]]
  | c :: cs =>
    let r := splitOnPred p cs
    if p c then [] :: r
    else
      match r with
      | [] => [[c]]
      | h :: t => (c :: h) :: t

/-- Python str.split on a single-character separator. -/
def pySplitChar (c : Char) (s : String) : List String :=
  (splitOnPred (fun d => d = c) s.data).map String.mk

/-- Python str.replace of a single character by the empty string: drop every
occurrence. -/
def removeChar (c : Char) (s : String) : String :=
  String.mk (s.data.filter (fun d => !(d = c)))

/-- Python str.strip: drop leading and trailing whitespace. -/
def pyStrip (s : String) : String :=
  String.mk (((s.data.dropWhile Char.isWhitespace).reverse.dropWhile
    Char.isWhitespace).reverse)

/-- Decimal value of a digit list (most significant first). -/
def digitsVal (cs : List Char) : Nat :=
  cs.foldl (fun a c => a * 10 + (c.toNat - 48)) 0

/-- Nonempty all-digit check. -/
def allDigits (cs : List Char) : Bool :=
  !cs.isEmpty && cs.all Char.isDigit

/-- Mantissa of a Python float literal: digits with an optional single dot;
at least one digit overall.  Returns the digit string value together with the
number of fractional digits. -/
def parseMantissa (cs : List Char) : Option (Nat × Nat) :=
  match splitOnPred (fun d => d = '.') cs with
  | [ip] => if allDigits ip then some (digitsVal ip, 0) else none
  | [ip, fp] =>
    if (ip.isEmpty && fp.isEmpty) || !(ip.all Char.isDigit) || !(fp.all Char.isDigit) then
      none
    else
      some (digitsVal (ip ++ fp), fp.length)
  | _ => none

/-- Exponent of a Python float literal: optional sign then digits. -/
def parseExp (cs : List Char) : Option Int :=
  match cs with
  | '+' :: rest => if allDigits rest then some (Int.ofNat (digitsVal rest)) else none
  | '-' :: rest => if allDigits rest then some (-(Int.ofNat (digitsVal rest))) else none
  | rest => if allDigits rest then some (Int.ofNat (digitsVal rest)) else none

/-- Python builtin float applied to a string, modelled over the rationals for
finite decimal and scientific-notation literals; none models ValueError. -/
def pyFloat (s : String) : Option Rat :=
  match (pyStrip s).data with
  | [] => none
  | t =>
    let sgnCs : Int × List Char :=
      match t with
      | '+' :: r => (1, r)
      | '-' :: r => (-1, r)
      | r => (1, r)
    match splitOnPred (fun d => d = 'e' || d = 'E') sgnCs.2 with
    | [m] =>
      match parseMantissa m with
      | some (n, fl) => some (mkRat (sgnCs.1 * Int.ofNat n) (10 ^ fl))
      | none => none
    | [m, ex] =>
      match parseMantissa m, parseExp ex with
      | some (n, fl), some e =>
        some (mkRat (sgnCs.1 * Int.ofNat n * (10 : Int) ^ e.toNat)
          (10 ^ (fl + (-e).toNat)))
      | _, _ => none
    | _ => none

/-- Convert each element with pyFloat, reporting the first element that fails
(the Python list comprehension raises ValueError there). -/
def floatList : List String → Except String (List Rat)
  | [] => .ok []
  | c :: rest =>
    match pyFloat c with
    | none => .error c
    | some v =>
      match floatList rest with
      | .error bad => .error bad
      | .ok vs => .ok (v :: vs)

/-- The parsing steps of get_position applied to the GetPose reply string:
drop every closing parenthesis, split on the opening parenthesis, take
part 1, split on commas, convert to floats, take the first four.  The error
message is the text of the Python exception raised at the failing step. -/
def parsePose (pose_str : String) : Except String (Rat × Rat × Rat × Rat) :=
  match (pySplitChar '(' (removeChar ')' pose_str)).get? 1 with
  | none => .error "list index out of range"
  | some coords_str =>
    match floatList (pySplitChar ',' coords_str) with
    | .error bad =>
        .error ("could not convert string to float: \x27" ++ bad ++ "\x27")
    | .ok coords =>
      match coords.get? 0, coords.get? 1, coords.get? 2, coords.get? 3 with
      | some x, some y, some z, some r => .ok (x, y, z, r)
      | _, _, _, _ => .error "list index out of range"

/-- get_position endpoint (GET /api/robot/position): one GetPose call, then
positional parsing; the GetPose fault and every parse failure are caught by
the same except clause. -/
def get_position (h : Handles) (remote : Remote) : Outcome × List Call :=
  match check_dobot_connection h with
  | some (body, code) => (Outcome.ok ⟨code, body⟩, [])
  | none =>
    match remote Call.getPose with
    | .error e =>
        (Outcome.ok ⟨500, errJson ("Failed to parse position: " ++ e)⟩, [Call.getPose])
    | .ok pose_str =>
      match parsePose pose_str with
      | .error e =>
          (Outcome.ok ⟨500, errJson ("Failed to parse position: " ++ e)⟩, [Call.getPose])
      | .ok (x, y, z, r) =>
          (Outcome.ok ⟨200, Json.obj
            [("status", Json.str "success"),
             ("position", Json.obj
               [("x", Json.num x), ("y", Json.num y),
                ("z", Json.num z), ("r", Json.num r)]),
             ("robot_response", Json.str pose_str)]⟩, [Call.getPose])

/-- Python str() of an integer. -/
def intRender (n : Int) : String :=
  toString n

/-- Python str() rendering of a request JSON value, as interpolated into the
f-string messages.  A JSON number with integral value is a Python int and
renders without a decimal point; non-integral rationals are rendered as a
fraction (the model of float repr). -/
def pyStr (v : JVal) : String :=
  match v with
  | .null => "None"
  | .bool true => "True"
  | .bool false => "False"
  | .num q => if q.den = 1 then intRender q.num else intRender q.num ++ "/" ++ toString q.den
  | .str s => s

/-- Python type name of a request JSON value (JSON numbers become int or
float; the model reports float). -/
def pyTypeName (v : JVal) : String :=
  match v with
  | .null => "NoneType"
  | .bool _ => "bool"
  | .num _ => "float"
  | .str _ => "str"

/-- Numeric view a Python comparison with an int uses: numbers compare by
value and bools compare as 0 or 1; None and strings are not comparable with
an int (TypeError). -/
def pyLeNum (v : JVal) : Option Rat :=
  match v with
  | .num q => some q
  | .bool b => some (if b then 1 else 0)
  | _ => none

/-- The TypeError message Python raises for an unsupported int comparison. -/
def leTypeErrorMsg (v : JVal) : String :=
  "TypeError: \x27<=\x27 not supported between instances of \x27int\x27 and \x27" ++
    pyTypeName v ++ "\x27"

/-- Python a <= v for an int literal a and a request JSON value v. -/
def intLeJ (a : Rat) (v : JVal) : Except String Bool :=
  match pyLeNum v with
  | some q => .ok (decide (a ≤ q))
  | none => .error (leTypeErrorMsg v)

/-- Python v <= b for a request JSON value v and an int literal b. -/
def jLeInt (v : JVal) (b : Rat) : Except String Bool :=
  match pyLeNum v with
  | some q => .ok (decide (q ≤ b))
  | none => .error (leTypeErrorMsg v)

/-- The chained Python comparison 1 <= ratio <= 100 (short-circuiting, each
side raising TypeError on a non-numeric ratio). -/
def ratioInRange ( ratio : JVal) : Except String Bool :=
  match intLeJ 1 ratio with
  | .error e => .error e
  | .ok false => .ok false
  | .ok true => jLeInt ratio 100

/-- Does pat occur in s? (Python in operator on strings.) -/
def listStartsWith : List Char → List Char → Bool
  | _, [] => true
  | [], _ :: _ => false
  | c :: cs, p :: ps => c = p && listStartsWith cs ps

/-- Substring occurrence on character lists. -/
def listContainsSub (s pat : List Char) : Bool :=
  match s with
  | [] => pat.isEmpty
  | _ :: rest => listStartsWith s pat || listContainsSub rest pat

/-- Python pat in s for strings. -/
def strContains (s pat : String) : Bool :=
  listContainsSub s.data pat.data

/-- The invalid-payload message of the move endpoints. -/
def invalidMoveMsg : String :=
  "Invalid payload. Required keys: x, y, z, r"

/-- The move type determined from the URL rule: MovJ when move/j occurs in
the request path, MovL otherwise. -/
def moveTypeOf (path : String) : String :=
  if strContains path "move/j" then "MovJ" else "MovL"

/-- The motion command dispatched for a move type. -/
def moveCmd (move_type : String) (x y z r : JVal) : Call :=
  if move_type = "MovJ" then Call.movJ x y z r else Call.movL x y z r

/-- move_robot handler (POST /api/robot/move/j and /api/robot/move/l): the
motion command is chosen by whether move/j occurs in the request path; after
the motion command, Sync blocks until completion, before the success
response. -/
def move_robot (path : String) (h : Handles) (remote : Remote) (body : ReqBody) :
    Outcome × List Call :=
  match check_dobot_connection h with
  | some (b, code) => (Outcome.ok ⟨code, b⟩, [])
  | none =>
    match body with
    | none => (Outcome.ok ⟨400, errJson invalidMoveMsg⟩, [])
    | some data =>
      if data.isEmpty || !(["x", "y", "z", "r"].all (fun k => (lookupKey data k).isSome)) then
        (Outcome.ok ⟨400, errJson invalidMoveMsg⟩, [])
      else
        match lookupKey data "x", lookupKey data "y", lookupKey data "z", lookupKey data "r" with
        | some x, some y, some z, some r =>
          (match remote (moveCmd (moveTypeOf path) x y z r) with
           | .error e => (Outcome.ok ⟨500, errJson e⟩, [moveCmd (moveTypeOf path) x y z r])
           | .ok result =>
             match remote Call.sync with
             | .error e =>
               (Outcome.ok ⟨500, errJson e⟩, [moveCmd (moveTypeOf path) x y z r, Call.sync])
             | .ok _ =>
               (Outcome.ok ⟨200, Json.obj
                 [("status", Json.str "success"),
                  ("message", Json.str ("Executing " ++ moveTypeOf path ++ " to (" ++ pyStr x ++
                    ", " ++ pyStr y ++ ", " ++ pyStr z ++ ", " ++ pyStr r ++
                    ") and waiting for completion.")),
                  ("robot_response", Json.str result)]⟩,
                [moveCmd (moveTypeOf path) x y z r, Call.sync]))
        | _, _, _, _ =>
          -- unreachable: the all-keys guard above already ensured presence
          (Outcome.ok ⟨400, errJson invalidMoveMsg⟩, [])

/-- The invalid-payload message of the speed endpoint. -/
def invalidSpeedMsg : String :=
  "Invalid payload. Required key: ratio"

/-- The out-of-range message of the speed endpoint. -/
def speedRangeMsg : String :=
  "Speed ratio must be between 1 and 100."

/-- set_speed handler (POST /api/robot/speed).  The range check is outside
any try/except: a TypeError raised by the chained comparison escapes the
handler. -/
def set_speed (h : Handles) (remote : Remote) (body : ReqBody) : Outcome × List Call :=
  match check_dobot_connection h with
  | some (b, code) => (Outcome.ok ⟨code, b⟩, [])
  | none =>
    match body with
    | none => (Outcome.ok ⟨400, errJson invalidSpeedMsg⟩, [])
    | some data =>
      if data.isEmpty then (Outcome.ok ⟨400, errJson invalidSpeedMsg⟩, [])
      else
        match lookupKey data "ratio" with
        | none => (Outcome.ok ⟨400, errJson invalidSpeedMsg⟩, [])
        | some ratio =>
          match ratioInRange ratio with
          | .error e => (Outcome.unhandled e, [])
          | .ok false => (Outcome.ok ⟨400, errJson speedRangeMsg⟩, [])
          | .ok true =>
            match remote (Call.speedFactor ratio) with
            | .ok result =>
              (Outcome.ok ⟨200, Json.obj
                [("status", Json.str "success"),
                 ("message", Json.str ("Global speed set to " ++ pyStr ratio ++ "%.")),
                 ("robot_response", Json.str result)]⟩, [Call.speedFactor ratio])
            | .error e => (Outcome.ok ⟨500, errJson e⟩, [Call.speedFactor ratio])

/-- The API endpoints of the Flask app (URL routes). -/
inductive Endpoint where
  | connectionCheck
  | enable
  | disable
  | stop
  | position
  | moveJ
  | moveL
  | speed
deriving DecidableEq

/-- The HTTP router: dispatch a request on an endpoint to its handler, with
the request path the move handler inspects. -/
def handle (e : Endpoint) (h : Handles) (remote : Remote) (body : ReqBody) :
    Outcome × List Call :=
  match e with
  | .connectionCheck => connection_check h remote
  | .enable => enable_robot h remote
  | .disable => disable_robot h remote
  | .stop => stop_robot h remote
  | .position => get_position h remote
  | .moveJ => move_robot "/api/robot/move/j" h remote body
  | .moveL => move_robot "/api/robot/move/l" h remote body
  | .speed => set_speed h remote body

/-- The endpoints guarded by check_dobot_connection. -/
def protectedEndpoints : List Endpoint :=
  [.enable, .disable, .stop, .position, .moveJ, .moveL, .speed]

/-- First-match lookup among response object fields. -/
def lookupField : List (String × Json) → String → Option Json
  | [], _ => none
  | (k2, v) :: rest, k => if k2 = k then some v else lookupField rest k

/-- Field access in a response object. -/
def Json.getField (j : Json) (k : String) : Option Json :=
  match j with
  | .obj fields => lookupField fields k
  | _ => none

theorem check_dobot_connection_absent (h : Handles)
    (hd : h.dashboard = false ∨ h.move = false ∨ h.feed = false) :
    check_dobot_connection h = some (errJson notConnectedMsg, 503) := by
  rcases hd with hd | hd | hd <;> simp [check_dobot_connection, hd]

theorem check_dobot_connection_present (h : Handles)
    (hc : h.dashboard = true ∧ h.move = true ∧ h.feed = true) :
    check_dobot_connection h = none := by
  obtain ⟨h1, h2, h3⟩ := hc
  simp [check_dobot_connection, h1, h2, h3]

theorem lookupKey_not_nil {data : List (String × JVal)} {k : String} {v : JVal}
    (h : lookupKey data k = some v) : data.isEmpty = false := by
  cases data with
  | nil => simp [lookupKey] at h
  | cons a rest => rfl

/-- C1: for every protected endpoint (enable, disable, stop, position,
move/j, move/l, speed), if any of the three connection handles is absent,
the endpoint returns HTTP 503 with the not-connected error message and
status error, issuing no remote call. -/
theorem protected_endpoint_not_connected_503 (e : Endpoint) (h : Handles)
    (remote : Remote) (body : ReqBody)
    (he : e ∈ protectedEndpoints)
    (hd : h.dashboard = false ∨ h.move = false ∨ h.feed = false) :
    handle e h remote body = (Outcome.ok ⟨503, errJson notConnectedMsg⟩, []) := by
  have hcc := check_dobot_connection_absent h hd
  fin_cases he <;>
    simp [handle, enable_robot, disable_robot, stop_robot, get_position, move_robot,
      set_speed, hcc]

/-- Witness for C1 at the position endpoint with an absent dashboard
handle. -/
theorem protected_endpoint_not_connected_503_witness :
    handle Endpoint.position ⟨false, true, true⟩ (fun _ => Except.ok "") none =
      (Outcome.ok ⟨503, errJson notConnectedMsg⟩, []) :=
  protected_endpoint_not_connected_503 Endpoint.position ⟨false, true, true⟩
    (fun _ => Except.ok "") none (by decide) (Or.inl rfl)

/-- C6: the connection-check endpoint returns a JSON object of three
booleans where dashboard is true iff the dashboard handle exists and the
GetErrorID round-trip succeeds, move is true iff the move handle exists and
dashboard is true, feed is true iff the feed handle exists and dashboard is
true; move and feed are false whenever dashboard is false. -/
theorem connection_check_statuses (h : Handles) (remote : Remote) :
    ∃ d m f : Bool,
      connection_check h remote =
        (Outcome.ok ⟨200, Json.obj
          [("dashboard", Json.bool d), ("move", Json.bool m), ("feed", Json.bool f)]⟩,
         if h.dashboard then [Call.getErrorID] else []) ∧
      (d = true ↔ h.dashboard = true ∧ exOk (remote Call.getErrorID) = true) ∧
      (m = true ↔ h.move = true ∧ d = true) ∧
      (f = true ↔ h.feed = true ∧ d = true) ∧
      (d = false → m = false ∧ f = false) := by
  refine ⟨h.dashboard && exOk (remote Call.getErrorID),
    h.move && (h.dashboard && exOk (remote Call.getErrorID)),
    h.feed && (h.dashboard && exOk (remote Call.getErrorID)), rfl, ?_, ?_, ?_, ?_⟩
  · simp
  · simp
  · simp
  · intro hd
    simp [hd]

/-- C10: a speed request whose ratio is present but not comparable with an
int (here any JSON string) makes the chained range comparison raise; the
handler returns no JSON envelope at all (neither a 400 nor a 500), the
exception escapes, and no remote call is made. -/
theorem speed_ratio_incomparable_unhandled (h : Handles) (remote : Remote)
    (data : List (String × JVal)) (s : String)
    (hc : h.dashboard = true ∧ h.move = true ∧ h.feed = true)
    (hr : lookupKey data "ratio" = some (JVal.str s)) :
    handle Endpoint.speed h remote (some data) =
      (Outcome.unhandled (leTypeErrorMsg (JVal.str s)), []) := by
  have hcc := check_dobot_connection_present h hc
  have hne := lookupKey_not_nil hr
  simp [handle, set_speed, hcc, hne, hr, ratioInRange, intLeJ, pyLeNum]

/-- Witness for C10: ratio given as the JSON string "fast". -/
theorem speed_ratio_incomparable_unhandled_witness :
    handle Endpoint.speed ⟨true, true, true⟩ (fun _ => Except.ok "0")
        (some [("ratio", JVal.str "fast")]) =
      (Outcome.unhandled (leTypeErrorMsg (JVal.str "fast")), []) :=
  speed_ratio_incomparable_unhandled ⟨true, true, true⟩ (fun _ => Except.ok "0")
    [("ratio", JVal.str "fast")] "fast" (by decide) rfl

/-- C3: with all handles present and the GetPose reply consisting of a
status field, an empty braced field and GetPose(1.0,2.0,3.0,4.0), the
position endpoint returns a success envelope with position x=1, y=2, z=3,
r=4 (the four comma-separated numbers inside the parentheses taken
positionally) and the raw reply string. -/
theorem position_parses_getpose_reply (h : Handles) (remote : Remote)
    (hc : h.dashboard = true ∧ h.move = true ∧ h.feed = true)
    (hp : remote Call.getPose = Except.ok "0,\x7b\x7d,GetPose(1.0,2.0,3.0,4.0)") :
    handle Endpoint.position h remote none =
      (Outcome.ok ⟨200, Json.obj
        [("status", Json.str "success"),
         ("position", Json.obj
           [("x", Json.num 1), ("y", Json.num 2), ("z", Json.num 3), ("r", Json.num 4)]),
         ("robot_response", Json.str "0,\x7b\x7d,GetPose(1.0,2.0,3.0,4.0)")]⟩,
       [Call.getPose]) := by
  have hcc := check_dobot_connection_present h hc
  have hpp : parsePose "0,\x7b\x7d,GetPose(1.0,2.0,3.0,4.0)" =
      Except.ok (1, 2, 3, 4) := rfl
  simp [handle, get_position, hcc, hp, hpp]

/-- Witness for C3 with a remote answering the GetPose reply. -/
theorem position_parses_getpose_reply_witness :
    handle Endpoint.position ⟨true, true, true⟩
        (fun _ => Except.ok "0,\x7b\x7d,GetPose(1.0,2.0,3.0,4.0)") none =
      (Outcome.ok ⟨200, Json.obj
        [("status", Json.str "success"),
         ("position", Json.obj
           [("x", Json.num 1), ("y", Json.num 2), ("z", Json.num 3), ("r", Json.num 4)]),
         ("robot_response", Json.str "0,\x7b\x7d,GetPose(1.0,2.0,3.0,4.0)")]⟩,
       [Call.getPose]) :=
  position_parses_getpose_reply ⟨true, true, true⟩
    (fun _ => Except.ok "0,\x7b\x7d,GetPose(1.0,2.0,3.0,4.0)") (by decide) rfl

/-- C8: with all handles present, any GetPose reply the parsing steps reject
produces HTTP 500 with the generic message prefix Failed to parse position
followed by the exception text. -/
theorem position_parse_failure_500 (h : Handles) (remote : Remote) (s e : String)
    (hc : h.dashboard = true ∧ h.move = true ∧ h.feed = true)
    (hp : remote Call.getPose = Except.ok s)
    (he : parsePose s = Except.error e) :
    handle Endpoint.position h remote none =
      (Outcome.ok ⟨500, errJson ("Failed to parse position: " ++ e)⟩, [Call.getPose]) := by
  have hcc := check_dobot_connection_present h hc
  simp [handle, get_position, hcc, hp, he]

/-- Witness for C8: a reply without parentheses fails with an index error. -/
theorem position_parse_failure_500_witness :
    handle Endpoint.position ⟨true, true, true⟩ (fun _ => Except.ok "garbage") none =
      (Outcome.ok ⟨500, errJson ("Failed to parse position: " ++ "list index out of range")⟩,
       [Call.getPose]) :=
  position_parse_failure_500 ⟨true, true, true⟩ (fun _ => Except.ok "garbage")
    "garbage" "list index out of range" (by decide) rfl rfl

/-- C5: for move/j and move/l with all handles present, a request whose JSON
body is absent or misses any of x, y, z, r returns HTTP 400 with the
invalid-payload message and no remote motion call is made. -/
theorem move_invalid_payload_400 (e : Endpoint) (h : Handles) (remote : Remote)
    (body : ReqBody)
    (he : e = Endpoint.moveJ ∨ e = Endpoint.moveL)
    (hc : h.dashboard = true ∧ h.move = true ∧ h.feed = true)
    (hm : body = none ∨ ∃ data, body = some data ∧
      (lookupKey data "x" = none ∨ lookupKey data "y" = none ∨
       lookupKey data "z" = none ∨ lookupKey data "r" = none)) :
    handle e h remote body = (Outcome.ok ⟨400, errJson invalidMoveMsg⟩, []) := by
  have hcc := check_dobot_connection_present h hc
  rcases hm with rfl | ⟨data, rfl, hk⟩
  · rcases he with rfl | rfl <;> simp [handle, move_robot, hcc]
  · have hall : (["x", "y", "z", "r"].all (fun k => (lookupKey data k).isSome)) = false := by
      rcases hk with hk | hk | hk | hk <;> simp [List.all, hk]
    rcases he with rfl | rfl <;> simp [handle, move_robot, hcc, hall]

/-- Witness for C5: a move/j body missing the key r. -/
theorem move_invalid_payload_400_witness :
    handle Endpoint.moveJ ⟨true, true, true⟩ (fun _ => Except.ok "0")
        (some [("x", JVal.num 1), ("y", JVal.num 2), ("z", JVal.num 3)]) =
      (Outcome.ok ⟨400, errJson invalidMoveMsg⟩, []) :=
  move_invalid_payload_400 Endpoint.moveJ ⟨true, true, true⟩ (fun _ => Except.ok "0")
    (some [("x", JVal.num 1), ("y", JVal.num 2), ("z", JVal.num 3)])
    (Or.inl rfl) (by decide)
    (Or.inr ⟨_, rfl, Or.inr (Or.inr (Or.inr rfl))⟩)

theorem ratioInRange_num (q : Rat) :
    ratioInRange (JVal.num q) = Except.ok (decide (1 ≤ q) && decide (q ≤ 100)) := by
  by_cases h1 : (1 : Rat) ≤ q <;> simp [ratioInRange, intLeJ, jLeInt, pyLeNum, h1]

/-- C4: for the speed endpoint with all handles present and an integer
ratio, a ratio outside [1,100] yields HTTP 400 with no remote call, while
the boundary values 1 and 100 pass validation and SpeedFactor is called
with that ratio. -/
theorem speed_range_check (h : Handles) (remote : Remote)
    (data : List (String × JVal)) (n : Int)
    (hc : h.dashboard = true ∧ h.move = true ∧ h.feed = true)
    (hr : lookupKey data "ratio" = some (JVal.num (n : Rat))) :
    ((n < 1 ∨ 100 < n) →
      handle Endpoint.speed h remote (some data) =
        (Outcome.ok ⟨400, errJson speedRangeMsg⟩, [])) ∧
    ((n = 1 ∨ n = 100) →
      (handle Endpoint.speed h remote (some data)).2 =
        [Call.speedFactor (JVal.num (n : Rat))]) := by
  have hcc := check_dobot_connection_present h hc
  have hne := lookupKey_not_nil hr
  constructor
  · intro hout
    have hfalse : (decide ((1 : Rat) ≤ (n : Rat)) && decide (((n : Rat) : Rat) ≤ 100)) = false := by
      rcases hout with hlt | hgt
      · have h1 : ((n : Rat) < 1) := by exact_mod_cast hlt
        simp [not_le.mpr h1]
      · have h2 : ((100 : Rat) < (n : Rat)) := by exact_mod_cast hgt
        simp [not_le.mpr h2]
    simp [handle, set_speed, hcc, hne, hr, ratioInRange_num, hfalse]
  · intro hb
    have htrue : (decide ((1 : Rat) ≤ (n : Rat)) && decide (((n : Rat) : Rat) ≤ 100)) = true := by
      rcases hb with rfl | rfl <;> norm_num
    cases hrem : remote (Call.speedFactor (JVal.num (n : Rat))) <;>
      simp [handle, set_speed, hcc, hne, hr, ratioInRange_num, htrue, hrem]

/-- Witness for C4: ratio 150 is rejected with 400 and ratio 100 passes,
calling SpeedFactor. -/
theorem speed_range_check_witness :
    (handle Endpoint.speed ⟨true, true, true⟩ (fun _ => Except.ok "0")
        (some [("ratio", JVal.num ((150 : Int) : Rat))]) =
      (Outcome.ok ⟨400, errJson speedRangeMsg⟩, [])) ∧
    ((handle Endpoint.speed ⟨true, true, true⟩ (fun _ => Except.ok "0")
        (some [("ratio", JVal.num ((100 : Int) : Rat))])).2 =
      [Call.speedFactor (JVal.num ((100 : Int) : Rat))]) :=
  ⟨(speed_range_check ⟨true, true, true⟩ (fun _ => Except.ok "0")
      [("ratio", JVal.num ((150 : Int) : Rat))] 150 (by decide) rfl).1
      (Or.inr (by decide)),
   (speed_range_check ⟨true, true, true⟩ (fun _ => Except.ok "0")
      [("ratio", JVal.num ((100 : Int) : Rat))] 100 (by decide) rfl).2
      (Or.inr rfl)⟩

theorem moveTypeOf_j : moveTypeOf "/api/robot/move/j" = "MovJ" := rfl

theorem moveTypeOf_l : moveTypeOf "/api/robot/move/l" = "MovL" := rfl

theorem allKeys_present {data : List (String × JVal)} {vx vy vz vr : JVal}
    (hx : lookupKey data "x" = some vx) (hy : lookupKey data "y" = some vy)
    (hz : lookupKey data "z" = some vz) (hr : lookupKey data "r" = some vr) :
    (["x", "y", "z", "r"].all (fun k => (lookupKey data k).isSome)) = true := by
  simp [List.all, hx, hy, hz, hr]

/-- C7: a valid move request (all handles, all four keys) to move/j issues
exactly one MovJ remote call and to move/l exactly one MovL remote call,
with Sync issued after the motion command and before the success response;
the response is the 200 success envelope carrying the motion reply. -/
theorem move_valid_request_calls (h : Handles) (remote : Remote)
    (data : List (String × JVal)) (vx vy vz vr : JVal) (sJ sL sS : String)
    (hc : h.dashboard = true ∧ h.move = true ∧ h.feed = true)
    (hx : lookupKey data "x" = some vx) (hy : lookupKey data "y" = some vy)
    (hz : lookupKey data "z" = some vz) (hr : lookupKey data "r" = some vr)
    (hJ : remote (Call.movJ vx vy vz vr) = Except.ok sJ)
    (hL : remote (Call.movL vx vy vz vr) = Except.ok sL)
    (hS : remote Call.sync = Except.ok sS) :
    (∃ msgJ : String, handle Endpoint.moveJ h remote (some data) =
      (Outcome.ok ⟨200, Json.obj
        [("status", Json.str "success"), ("message", Json.str msgJ),
         ("robot_response", Json.str sJ)]⟩,
       [Call.movJ vx vy vz vr, Call.sync])) ∧
    (∃ msgL : String, handle Endpoint.moveL h remote (some data) =
      (Outcome.ok ⟨200, Json.obj
        [("status", Json.str "success"), ("message", Json.str msgL),
         ("robot_response", Json.str sL)]⟩,
       [Call.movL vx vy vz vr, Call.sync])) := by
  have hcc := check_dobot_connection_present h hc
  have hne := lookupKey_not_nil hx
  have hall := allKeys_present hx hy hz hr
  constructor
  · refine ⟨"Executing " ++ moveTypeOf "/api/robot/move/j" ++ " to (" ++ pyStr vx ++
      ", " ++ pyStr vy ++ ", " ++ pyStr vz ++ ", " ++ pyStr vr ++
      ") and waiting for completion.", ?_⟩
    simp [handle, move_robot, hcc, hne, hall, hx, hy, hz, hr, moveTypeOf_j, moveCmd,
      hJ, hS]
  · refine ⟨"Executing " ++ moveTypeOf "/api/robot/move/l" ++ " to (" ++ pyStr vx ++
      ", " ++ pyStr vy ++ ", " ++ pyStr vz ++ ", " ++ pyStr vr ++
      ") and waiting for completion.", ?_⟩
    simp [handle, move_robot, hcc, hne, hall, hx, hy, hz, hr, moveTypeOf_l, moveCmd,
      hL, hS]

/-- Witness for C7 at concrete coordinates 200, 100, 50, 0. -/
theorem move_valid_request_calls_witness :
    (∃ msgJ : String, handle Endpoint.moveJ ⟨true, true, true⟩ (fun _ => Except.ok "ok")
        (some [("x", JVal.num 200), ("y", JVal.num 100), ("z", JVal.num 50),
               ("r", JVal.num 0)]) =
      (Outcome.ok ⟨200, Json.obj
        [("status", Json.str "success"), ("message", Json.str msgJ),
         ("robot_response", Json.str "ok")]⟩,
       [Call.movJ (JVal.num 200) (JVal.num 100) (JVal.num 50) (JVal.num 0),
        Call.sync])) ∧
    (∃ msgL : String, handle Endpoint.moveL ⟨true, true, true⟩ (fun _ => Except.ok "ok")
        (some [("x", JVal.num 200), ("y", JVal.num 100), ("z", JVal.num 50),
               ("r", JVal.num 0)]) =
      (Outcome.ok ⟨200, Json.obj
        [("status", Json.str "success"), ("message", Json.str msgL),
         ("robot_response", Json.str "ok")]⟩,
       [Call.movL (JVal.num 200) (JVal.num 100) (JVal.num 50) (JVal.num 0),
        Call.sync])) :=
  move_valid_request_calls ⟨true, true, true⟩ (fun _ => Except.ok "ok")
    [("x", JVal.num 200), ("y", JVal.num 100), ("z", JVal.num 50), ("r", JVal.num 0)]
    (JVal.num 200) (JVal.num 100) (JVal.num 50) (JVal.num 0) "ok" "ok" "ok"
    (by decide) rfl rfl rfl rfl rfl rfl rfl

/-- C2: for every command endpoint, when the remote call it reaches raises a
fault with message m, the endpoint returns HTTP 500 with status error and
the fault text in the body: verbatim as the message for enable, disable,
stop, move/j, move/l and speed, and appended to the generic prefix for
position.  The call log shows the single faulting call. -/
theorem remote_fault_returns_500 (h : Handles) (m : String)
    (mdata sdata : List (String × JVal)) (vx vy vz vr rt : JVal)
    (hc : h.dashboard = true ∧ h.move = true ∧ h.feed = true)
    (hx : lookupKey mdata "x" = some vx) (hy : lookupKey mdata "y" = some vy)
    (hz : lookupKey mdata "z" = some vz) (hr : lookupKey mdata "r" = some vr)
    (hrt : lookupKey sdata "ratio" = some rt)
    (hrange : ratioInRange rt = Except.ok true) :
    handle Endpoint.enable h (fun _ => Except.error m) none =
      (Outcome.ok ⟨500, errJson m⟩, [Call.enableRobot]) ∧
    handle Endpoint.disable h (fun _ => Except.error m) none =
      (Outcome.ok ⟨500, errJson m⟩, [Call.disableRobot]) ∧
    handle Endpoint.stop h (fun _ => Except.error m) none =
      (Outcome.ok ⟨500, errJson m⟩, [Call.resetRobot]) ∧
    handle Endpoint.position h (fun _ => Except.error m) none =
      (Outcome.ok ⟨500, errJson ("Failed to parse position: " ++ m)⟩, [Call.getPose]) ∧
    handle Endpoint.moveJ h (fun _ => Except.error m) (some mdata) =
      (Outcome.ok ⟨500, errJson m⟩, [Call.movJ vx vy vz vr]) ∧
    handle Endpoint.moveL h (fun _ => Except.error m) (some mdata) =
      (Outcome.ok ⟨500, errJson m⟩, [Call.movL vx vy vz vr]) ∧
    handle Endpoint.speed h (fun _ => Except.error m) (some sdata) =
      (Outcome.ok ⟨500, errJson m⟩, [Call.speedFactor rt]) := by
  have hcc := check_dobot_connection_present h hc
  have hmne := lookupKey_not_nil hx
  have hsne := lookupKey_not_nil hrt
  have hall := allKeys_present hx hy hz hr
  refine ⟨?_, ?_, ?_, ?_, ?_, ?_, ?_⟩ <;>
    simp [handle, enable_robot, disable_robot, stop_robot, get_position, move_robot,
      set_speed, hcc, hmne, hsne, hall, hx, hy, hz, hr, hrt, hrange, moveTypeOf_j,
      moveTypeOf_l, moveCmd]

/-- Witness for C2 with fault message "robot fault" and valid bodies. -/
theorem remote_fault_returns_500_witness :
    handle Endpoint.enable ⟨true, true, true⟩ (fun _ => Except.error "robot fault") none =
      (Outcome.ok ⟨500, errJson "robot fault"⟩, [Call.enableRobot]) ∧
    handle Endpoint.disable ⟨true, true, true⟩ (fun _ => Except.error "robot fault") none =
      (Outcome.ok ⟨500, errJson "robot fault"⟩, [Call.disableRobot]) ∧
    handle Endpoint.stop ⟨true, true, true⟩ (fun _ => Except.error "robot fault") none =
      (Outcome.ok ⟨500, errJson "robot fault"⟩, [Call.resetRobot]) ∧
    handle Endpoint.position ⟨true, true, true⟩ (fun _ => Except.error "robot fault") none =
      (Outcome.ok ⟨500, errJson ("Failed to parse position: " ++ "robot fault")⟩,
       [Call.getPose]) ∧
    handle Endpoint.moveJ ⟨true, true, true⟩ (fun _ => Except.error "robot fault")
        (some [("x", JVal.num 1), ("y", JVal.num 2), ("z", JVal.num 3), ("r", JVal.num 4)]) =
      (Outcome.ok ⟨500, errJson "robot fault"⟩,
       [Call.movJ (JVal.num 1) (JVal.num 2) (JVal.num 3) (JVal.num 4)]) ∧
    handle Endpoint.moveL ⟨true, true, true⟩ (fun _ => Except.error "robot fault")
        (some [("x", JVal.num 1), ("y", JVal.num 2), ("z", JVal.num 3), ("r", JVal.num 4)]) =
      (Outcome.ok ⟨500, errJson "robot fault"⟩,
       [Call.movL (JVal.num 1) (JVal.num 2) (JVal.num 3) (JVal.num 4)]) ∧
    handle Endpoint.speed ⟨true, true, true⟩ (fun _ => Except.error "robot fault")
        (some [("ratio", JVal.num 50)]) =
      (Outcome.ok ⟨500, errJson "robot fault"⟩, [Call.speedFactor (JVal.num 50)]) :=
  remote_fault_returns_500 ⟨true, true, true⟩ "robot fault"
    [("x", JVal.num 1), ("y", JVal.num 2), ("z", JVal.num 3), ("r", JVal.num 4)]
    [("ratio", JVal.num 50)]
    (JVal.num 1) (JVal.num 2) (JVal.num 3) (JVal.num 4) (JVal.num 50)
    (by decide) rfl rfl rfl rfl rfl rfl

/-- C9: whenever any endpoint returns a 503 or 400 response (the responses
produced by its own validation), the list of remote calls issued while
handling that request is empty: validation errors leave the remote side
untouched. -/
theorem validation_error_no_remote_calls (e : Endpoint) (h : Handles)
    (remote : Remote) (body : ReqBody) (r : HttpResponse) (log : List Call)
    (heq : handle e h remote body = (Outcome.ok r, log))
    (hcode : r.code = 503 ∨ r.code = 400) :
    log = [] := by
  cases e <;> simp only [handle] at heq
  all_goals
    first
      | unfold connection_check at heq
      | unfold enable_robot at heq
      | unfold disable_robot at heq
      | unfold stop_robot at heq
      | unfold get_position at heq
      | unfold move_robot at heq
      | unfold set_speed at heq
  all_goals repeat' split at heq
  all_goals injection heq with h1 h2
  all_goals try exact h2.symm
  all_goals injection h1 with h3
  all_goals subst h3
  all_goals simp at hcode

/-- Witness for C9: the speed endpoint on an empty JSON object returns 400
having issued no remote call. -/
theorem validation_error_no_remote_calls_witness :
    handle Endpoint.speed ⟨true, true, true⟩ (fun _ => Except.ok "") (some []) =
      (Outcome.ok ⟨400, errJson invalidSpeedMsg⟩, []) ∧ ([] : List Call) = [] :=
  ⟨rfl, validation_error_no_remote_calls Endpoint.speed ⟨true, true, true⟩
    (fun _ => Except.ok "") (some []) ⟨400, errJson invalidSpeedMsg⟩ [] rfl
    (Or.inr rfl)⟩
